import Mathlib

/-!
Verification of the conversational question-answering model facade
(`src/models/model.py`).

Python strings are embedded as `List Char` (a Python `str` is a sequence of
code points); `Option` models Python `None`.  The external collaborators that
are not part of this repository's source (the HuggingFace tokenizer, the
`TokenImportancesExtractor` and encoder-decoder modules, `torch.load`) are
abstract function fields / environment parameters, and their calls may fail
(`Except`), mirroring Python exceptions.  The facade methods are translated
statement by statement from `model.py`; each returns a trace recording the
collaborator calls it makes, so that claims about "which tokenization produced
this tensor" are statable.
-/

namespace QAModel

/-- A Python string: a sequence of characters. -/
abbrev PyStr := List Char

/-- Embed a Lean string literal as a Python string. -/
def pystr (s : String) : PyStr := s.data

/-- `stripLeading sep xs` returns `some rest` when `sep` is an initial segment
of `xs` (with `xs = sep ++ rest`), and `none` otherwise. -/
def stripLeading : List Char → List Char → Option (List Char)
  | [], ys => some ys
  | _ :: _, [] => none
  | x :: xs, y :: ys => if x = y then stripLeading xs ys else none

/-- Fuel-driven worker for `pySplit`.  Scans the input left to right; at each
position, if the separator is an initial segment of the remaining input it
closes the current field and skips the separator, otherwise it moves one
character into the accumulator.  The fuel only makes the recursion structural:
every step consumes at least one input character (the separator is nonempty in
every use), so with fuel at least the input length the fuel-exhausted branch
is unreachable. -/
def pySplitF (sep : List Char) : Nat → List Char → List Char → List (List Char)
  | _, [], acc => [acc.reverse]
  | 0, _ :: _, acc => [acc.reverse]
  | Nat.succ n, x :: xs, acc =>
    match stripLeading sep (x :: xs) with
    | some rest => acc.reverse :: pySplitF sep n rest []
    | none => pySplitF sep n xs (x :: acc)

/-- Python `s.split(sep)` for a nonempty separator `sep`: the maximal list of
fields whose `sep`-interleaving is `s`, scanning non-overlapping occurrences
left to right.  In particular Python's `"".split(sep) == [""]`: the result is
never the empty list. -/
def pySplit (sep s : List Char) : List (List Char) :=
  pySplitF sep s.length s []

/-- Python `sep.join(xs)`. -/
def pyJoin (sep : List Char) : List (List Char) → List Char
  | [] => []
  | [t] => t
  | t :: t' :: ts => t ++ sep ++ pyJoin sep (t' :: ts)

/-- The literal wire-format pattern `" <sep> "` that callers use to separate
history turns (`model.py`, lines 127 and 180). -/
def sepPattern : PyStr := pystr " <sep> "

/-- Single-sample conversation linearization, translated from
`Model.compute_token_importances` (`model.py`, lines 179-184):
split the history on `" <sep> "`, and append the turns to the question, joined
by the tokenizer's separator token surrounded by single spaces; the separator
is also injected between the question and the first turn unless the turns list
is empty. -/
def linearize_single (sep_token : PyStr) (question : PyStr) (history : Option PyStr) : PyStr :=
  match history with
  | some h =>
    let historyTurns := pySplit sepPattern h
    let separator := pystr " " ++ sep_token ++ pystr " "
    question ++ (if historyTurns.length ≠ 0 then separator else []) ++ pyJoin separator historyTurns
  | none => question

/-- Batched conversation linearization, translated from `Model.generate`
(`model.py`, lines 126-131): the same computation as `linearize_single`,
performed elementwise over `zip question history`. -/
def linearize_batch (sep_token : PyStr) (question : List PyStr) (history : Option (List PyStr)) :
    List PyStr :=
  match history with
  | some hist =>
    let historyTurns := hist.map (fun h => pySplit sepPattern h)
    let separator := pystr " " ++ sep_token ++ pystr " "
    (question.zip historyTurns).map
      (fun p => p.1 ++ (if p.2.length ≠ 0 then separator else []) ++ pyJoin separator p.2)
  | none => question

/-- One separator-prefixed copy of every turn:
`sepJoin sep [t1, ..., tk] = sep ++ t1 ++ sep ++ t2 ++ ... ++ sep ++ tk`. -/
def sepJoin (separator : PyStr) : List PyStr → PyStr
  | [] => []
  | t :: ts => separator ++ t ++ sepJoin separator ts

-- Sanity examples for the Python split/join semantics.
example : pySplit sepPattern (pystr "") = [pystr ""] := by decide
example : pySplit sepPattern (pystr " ") = [pystr " "] := by decide
example : pySplit sepPattern (pystr "a <sep> bb") = [pystr "a", pystr "bb"] := by decide
example : pySplit sepPattern (pystr "a <sep> ") = [pystr "a", pystr ""] := by decide
example : linearize_single (pystr "[SEP]") (pystr "Q?") (some (pystr "")) =
    pystr "Q? [SEP] " := by decide
example : linearize_single (pystr "[SEP]") (pystr "Q?") none = pystr "Q?" := by decide

/-- Errors raised by the external collaborators (Python exceptions). -/
abbrev Err := String

/-- A batch of token-id rows (`input_ids`). -/
abbrev InputIds := List (List Int)

/-- A batch of attention-mask rows. -/
abbrev AttentionMask := List (List Bool)

/-- A batch of per-token importance-score rows (floats modelled as rationals). -/
abbrev Scores := List (List ℚ)

/-- The tensors returned by one tokenizer call. -/
structure TokenizedInputs where
  input_ids : InputIds
  attention_mask : AttentionMask
deriving Repr, DecidableEq

/-- The arguments of one tokenizer invocation, as issued by `model.py`
(lines 134-141 and 186-193): the `question_and_history` batch, the paired
`passage` batch, and the keyword arguments. -/
structure TokenizerCall where
  texts : List PyStr
  pairs : List PyStr
  max_length : Nat
  truncation : Bool
  padding : Bool
  return_tensors : PyStr
deriving Repr, DecidableEq

/-- The generation-parameters dictionary: each key may be present (`some`) or
absent (`none`) from the dict. -/
structure GenParams where
  do_sample : Option Bool
  num_beams : Option Nat
  repetition_penalty : Option ℚ
deriving Repr, DecidableEq

/-- The default generation-parameters dictionary built at `model.py` line 122:
`do_sample=False, num_beams=3, repetition_penalty=2.0`, all three keys present. -/
def defaultGenerationParams : GenParams :=
  { do_sample := some false, num_beams := some 3, repetition_penalty := some 2 }

/-- The generation-parameters dictionary actually used by a `generate` call
(`model.py` lines 120-122): the default dictionary when the caller supplied
none, otherwise the caller's dictionary exactly as supplied. -/
def effectiveGenerationParams : Option GenParams → GenParams
  | none => defaultGenerationParams
  | some g => g

/-- The tokenizer (external collaborator, a black box per the spec): its
special-token attributes, its encoding entry point (a single call on a batch of
text/pair strings; a Python call on single strings with `return_tensors="pt"`
is the batch-of-one case), and `batch_decode` (second argument:
`skip_special_tokens`).  Encoding may raise. -/
structure Tokenizer where
  sep_token : PyStr
  cls_token_id : Int
  pad_token_id : Int
  encode : TokenizerCall → Except Err TokenizedInputs
  batch_decode : List (List Int) → Bool → List PyStr

/-- The `TokenImportancesExtractor` module (external collaborator defined in
`token_importances_extractor.py`, not part of this repository's `src/`): its
learned parameters (`state_dict`, an identifier for an abstract parameter
snapshot), the device it sits on, and its forward pass as a function of the
current parameters.  The forward pass may raise. -/
structure TokenImportancesExtractor where
  model_name : PyStr
  device : PyStr
  state_dict : Int
  fwd : Int → InputIds → AttentionMask → Except Err Scores

/-- The mutable generation configuration of the encoder-decoder. -/
structure EncDecConfig where
  decoder_start_token_id : Int
  pad_token_id : Int
deriving Repr, DecidableEq

/-- The encoder-decoder module (external collaborator defined in
`encoder_decoder.py`, not part of this repository's `src/`): learned
parameters, device, generation config, and its `generate` entry point as a
function of the current parameters, the input ids, the token-importance
scores, and the generation parameters.  Generation may raise. -/
structure EncoderDecoder where
  model_name : PyStr
  device : PyStr
  state_dict : Int
  config : EncDecConfig
  gen : Int → InputIds → Scores → GenParams → Except Err (List (List Int))

/-- The external environment: the constructors and loaders imported by
`model.py` (`AutoTokenizer.from_pretrained`, `TokenImportancesExtractor(...)`,
`build_encoder_decoder(...)`, `torch.load`).  `torchLoad` may raise. -/
structure Env where
  fromPretrained : PyStr → Tokenizer
  newExtractor : PyStr → TokenImportancesExtractor
  buildEncoderDecoder : PyStr → EncoderDecoder
  torchLoad : PyStr → Except Err Int

/-- The state of a `Model` object.  `generation_params` is the attribute
assigned at `model.py` line 123; it does not exist before the first `generate`
call (`none`). -/
structure Model where
  model_name : PyStr
  device : PyStr
  token_importances_extractor : TokenImportancesExtractor
  encoder_decoder : EncoderDecoder
  tokenizer : Tokenizer
  generation_params : Option GenParams

/-- `Model.__init__` (`model.py` lines 65-84): build the two modules from the
pretrained identifier, move them to the device, pick the supplied tokenizer or
the pretrained default, then (unconditionally, in both branches) copy the
tokenizer's `cls`/`pad` token ids into the encoder-decoder's config. -/
def Model.init (env : Env) (model_name : PyStr) (tokenizer : Option Tokenizer)
    (device : PyStr := pystr "cuda") : Model :=
  let tie := { env.newExtractor model_name with device := device }
  let ed := { env.buildEncoderDecoder model_name with device := device }
  let tok :=
    match tokenizer with
    | none => env.fromPretrained model_name
    | some t => t
  let ed :=
    { ed with
      config :=
        { ed.config with
          decoder_start_token_id := tok.cls_token_id
          pad_token_id := tok.pad_token_id } }
  { model_name := model_name
    device := device
    token_importances_extractor := tie
    encoder_decoder := ed
    tokenizer := tok
    generation_params := none }

/-- The value a successful `generate` call returns: either the generated text
alone, or, with `return_importances=True`, the pair of the text and the
importance-score tensor (`model.py` lines 153-156). -/
inductive GenerateReturn where
  | textOnly (generated_text : List PyStr)
  | withImportances (generated_text : List PyStr) (token_importances_output : Scores)
deriving Repr, DecidableEq

/-- The arguments of one `encoder_decoder.generate` invocation
(`model.py` lines 148-149). -/
structure EncDecCall where
  input_ids : InputIds
  token_importances : Scores
  params : GenParams
deriving Repr, DecidableEq

/-- The outcomes of the fallible stages of one `generate` call: the results of
the single tokenizer call, the extractor invocations with their results, the
encoder-decoder invocations, and the returned value or escaped exception. -/
structure PipelineSteps where
  tok_results : List (Except Err TokenizedInputs)
  extractor_calls : List (InputIds × AttentionMask)
  extractor_results : List (Except Err Scores)
  encdec_calls : List EncDecCall
  result : Except Err GenerateReturn

/-- The forward-pass half of `Model.generate` (`model.py` lines 134-156),
given the tokenizer call built at lines 134-141: tokenize, run the extractor
on the tokenized ids and mask (line 146), run the encoder-decoder on the same
ids, the extractor's scores and the generation parameters (lines 148-149),
decode (line 151) and return (lines 153-156).  An exception at any stage
aborts the call there. -/
def generateSteps (tokenizer : Tokenizer) (tie : TokenImportancesExtractor)
    (ed : EncoderDecoder) (call : TokenizerCall) (gp : GenParams)
    (return_importances : Bool) : PipelineSteps :=
  match tokenizer.encode call with
  | Except.error e =>
    { tok_results := [Except.error e]
      extractor_calls := []
      extractor_results := []
      encdec_calls := []
      result := Except.error e }
  | Except.ok inputs =>
    match tie.fwd tie.state_dict inputs.input_ids inputs.attention_mask with
    | Except.error e =>
      { tok_results := [Except.ok inputs]
        extractor_calls := [(inputs.input_ids, inputs.attention_mask)]
        extractor_results := [Except.error e]
        encdec_calls := []
        result := Except.error e }
    | Except.ok token_importances_output =>
      let edCall : EncDecCall :=
        { input_ids := inputs.input_ids
          token_importances := token_importances_output
          params := gp }
      match ed.gen ed.state_dict inputs.input_ids token_importances_output gp with
      | Except.error e =>
        { tok_results := [Except.ok inputs]
          extractor_calls := [(inputs.input_ids, inputs.attention_mask)]
          extractor_results := [Except.ok token_importances_output]
          encdec_calls := [edCall]
          result := Except.error e }
      | Except.ok generated_ids =>
        let generated_text := tokenizer.batch_decode generated_ids true
        { tok_results := [Except.ok inputs]
          extractor_calls := [(inputs.input_ids, inputs.attention_mask)]
          extractor_results := [Except.ok token_importances_output]
          encdec_calls := [edCall]
          result := Except.ok
            (if return_importances then
              GenerateReturn.withImportances generated_text token_importances_output
            else
              GenerateReturn.textOnly generated_text) }

/-- The trace of one `Model.generate` call: the post-call object state, every
collaborator invocation the call made (in order), and the returned value or
the exception that escaped. -/
structure GenerateTrace where
  final : Model
  tok_calls : List TokenizerCall
  tok_results : List (Except Err TokenizedInputs)
  extractor_calls : List (InputIds × AttentionMask)
  extractor_results : List (Except Err Scores)
  encdec_calls : List EncDecCall
  result : Except Err GenerateReturn

/-- `Model.generate` (`model.py` lines 87-156), traced.  In source order:
pick the effective generation parameters and store them on the object
(lines 120-123); linearize the question/history batch (lines 126-131); build
the single tokenizer call (lines 134-141); then run the forward-pass half
(`generateSteps`) against the object's tokenizer, extractor and
encoder-decoder.  The attribute assignment of line 123 persists even when a
later stage raises. -/
def Model.generate (m : Model) (passage question : List PyStr)
    (history : Option (List PyStr) := none) (generation_params : Option GenParams := none)
    (return_importances : Bool := false) : GenerateTrace :=
  let gp := effectiveGenerationParams generation_params
  let m' := { m with generation_params := some gp }
  let question_and_history := linearize_batch m'.tokenizer.sep_token question history
  let call : TokenizerCall :=
    { texts := question_and_history
      pairs := passage
      max_length := 512
      truncation := true
      padding := true
      return_tensors := pystr "pt" }
  let s := generateSteps m'.tokenizer m'.token_importances_extractor m'.encoder_decoder
    call gp return_importances
  { final := m'
    tok_calls := [call]
    tok_results := s.tok_results
    extractor_calls := s.extractor_calls
    extractor_results := s.extractor_results
    encdec_calls := s.encdec_calls
    result := s.result }

/-- The outcomes of the fallible stages of one `compute_token_importances`
call. -/
structure ComputeSteps where
  tok_results : List (Except Err TokenizedInputs)
  extractor_calls : List (InputIds × AttentionMask)
  extractor_results : List (Except Err Scores)
  result : Except Err Scores

/-- The forward-pass half of `Model.compute_token_importances` (`model.py`
lines 186-198), given the tokenizer call built at lines 186-193: tokenize,
run the extractor on the tokenized ids and mask (line 196), and return the
scores (line 198).  An exception at either stage aborts the call there. -/
def computeSteps (tokenizer : Tokenizer) (tie : TokenImportancesExtractor)
    (call : TokenizerCall) : ComputeSteps :=
  match tokenizer.encode call with
  | Except.error e =>
    { tok_results := [Except.error e]
      extractor_calls := []
      extractor_results := []
      result := Except.error e }
  | Except.ok inputs =>
    match tie.fwd tie.state_dict inputs.input_ids inputs.attention_mask with
    | Except.error e =>
      { tok_results := [Except.ok inputs]
        extractor_calls := [(inputs.input_ids, inputs.attention_mask)]
        extractor_results := [Except.error e]
        result := Except.error e }
    | Except.ok token_importances_output =>
      { tok_results := [Except.ok inputs]
        extractor_calls := [(inputs.input_ids, inputs.attention_mask)]
        extractor_results := [Except.ok token_importances_output]
        result := Except.ok token_importances_output }

/-- The trace of one `Model.compute_token_importances` call.  The method
mutates no object state, so no final state is recorded. -/
structure ComputeTrace where
  tok_calls : List TokenizerCall
  tok_results : List (Except Err TokenizedInputs)
  extractor_calls : List (InputIds × AttentionMask)
  extractor_results : List (Except Err Scores)
  result : Except Err Scores

/-- `Model.compute_token_importances` (`model.py` lines 159-198), traced.
Single-sample linearization (lines 179-184), one tokenizer call with the same
keyword arguments as `generate` on the single text/passage pair
(lines 186-193; the tokenizer treats a single string with
`return_tensors="pt"` as a batch of one), one extractor forward pass
(line 196), and the scores are returned (line 198). -/
def Model.compute_token_importances (m : Model) (passage question : PyStr)
    (history : Option PyStr := none) : ComputeTrace :=
  let question_and_history := linearize_single m.tokenizer.sep_token question history
  let call : TokenizerCall :=
    { texts := [question_and_history]
      pairs := [passage]
      max_length := 512
      truncation := true
      padding := true
      return_tensors := pystr "pt" }
  let s := computeSteps m.tokenizer m.token_importances_extractor call
  { tok_calls := [call]
    tok_results := s.tok_results
    extractor_calls := s.extractor_calls
    extractor_results := s.extractor_results
    result := s.result }

/-- `Model.load_weigths` (`model.py` lines 202-204; the method name's spelling
follows the source): load the extractor snapshot, replacing the extractor's
parameters, then load the encoder-decoder snapshot, replacing its parameters.
The returned pair is the object state when the call ends together with the
exception that escaped, if any: an exception while loading a snapshot leaves
the assignments already performed in place. -/
def Model.load_weigths (env : Env) (m : Model)
    (tokenImportancesExtractor_weigths_path encoderDecoder_weigths_path : PyStr) :
    Model × Option Err :=
  match env.torchLoad tokenImportancesExtractor_weigths_path with
  | Except.error e => (m, some e)
  | Except.ok sd =>
    let m' :=
      { m with
        token_importances_extractor := { m.token_importances_extractor with state_dict := sd } }
    match env.torchLoad encoderDecoder_weigths_path with
    | Except.error e => (m', some e)
    | Except.ok sd' =>
      ({ m' with encoder_decoder := { m'.encoder_decoder with state_dict := sd' } }, none)

/-- A concrete tokenizer used to evaluate the facade on closed inputs: every
encoding succeeds with a fixed three-token batch row. -/
def testTokenizer : Tokenizer :=
  { sep_token := pystr "[SEP]"
    cls_token_id := 101
    pad_token_id := 0
    encode := fun _ =>
      Except.ok { input_ids := [[101, 7, 102]], attention_mask := [[true, true, true]] }
    batch_decode := fun ids _ => ids.map (fun _ => pystr "ans") }

/-- A concrete extractor whose forward pass always succeeds, scoring every
token 1. -/
def testExtractor : TokenImportancesExtractor :=
  { model_name := pystr "prajjwal1/bert-tiny"
    device := pystr "cpu"
    state_dict := 0
    fwd := fun _ ids _ => Except.ok (ids.map (fun r => r.map (fun _ => (1 : ℚ)))) }

/-- A concrete encoder-decoder whose generation always succeeds. -/
def testEncDec : EncoderDecoder :=
  { model_name := pystr "prajjwal1/bert-tiny"
    device := pystr "cpu"
    state_dict := 0
    config := { decoder_start_token_id := 101, pad_token_id := 0 }
    gen := fun _ ids _ _ => Except.ok (ids.map (fun _ => [1, 2])) }

/-- A concrete model on which every pipeline stage succeeds. -/
def testModel : Model :=
  { model_name := pystr "prajjwal1/bert-tiny"
    device := pystr "cpu"
    token_importances_extractor := testExtractor
    encoder_decoder := testEncDec
    tokenizer := testTokenizer
    generation_params := none }

/-- A concrete model whose tokenizer raises on every call. -/
def failModel : Model :=
  { testModel with
    tokenizer := { testTokenizer with encode := fun _ => Except.error "tokenization failed" } }

/-- A concrete environment whose `torch.load` succeeds only on the path
`tie.pt`. -/
def testEnv : Env :=
  { fromPretrained := fun _ => testTokenizer
    newExtractor := fun _ => testExtractor
    buildEncoderDecoder := fun _ => testEncDec
    torchLoad := fun p => if p = pystr "tie.pt" then Except.ok 7 else Except.error "missing snapshot" }

/-- Prefixing a nonempty join with one more separator turns it into the
separator-prefixed form. -/
theorem sep_pyJoin_cons (sep t : PyStr) (ts : List PyStr) :
    sep ++ pyJoin sep (t :: ts) = sepJoin sep (t :: ts) := by
  induction ts generalizing t with
  | nil => simp [pyJoin, sepJoin]
  | cons t' ts ih =>
    show sep ++ (t ++ sep ++ pyJoin sep (t' :: ts)) = sep ++ t ++ sepJoin sep (t' :: ts)
    rw [← ih t']
    simp [List.append_assoc]

/-- The guarded separator plus the plain join (`model.py` line 129) equals the
separator-prefixed join of the turns. -/
theorem guard_join_eq_sepJoin (sep : PyStr) (ts : List PyStr) :
    (if ts.length ≠ 0 then sep else []) ++ pyJoin sep ts = sepJoin sep ts := by
  cases ts with
  | nil => simp [pyJoin, sepJoin]
  | cons t ts => simpa using sep_pyJoin_cons sep t ts

/-- C1: evaluating the linearization of `compute_token_importances` on the
claim's inputs.  With `history=None` the question is unchanged, but with
`history=""` (and likewise with whitespace history) Python's
`"".split(" <sep> ")` yields `[""]`, one empty turn rather than zero turns, so
the built `question_and_history` carries a dangling separator: it is
`"Q? [SEP] "`, not the question `"Q?"`.  The zero-turn guard at `model.py`
line 129 is dead code, so the intended zero-separator behaviour never
happens. -/
theorem empty_history_injects_dangling_separator :
    ((testModel.compute_token_importances (pystr "P.") (pystr "Q?") none).tok_calls.map
        TokenizerCall.texts = [[pystr "Q?"]]) ∧
    ((testModel.compute_token_importances (pystr "P.") (pystr "Q?")
        (some (pystr ""))).tok_calls.map TokenizerCall.texts = [[pystr "Q? [SEP] "]]) ∧
    ((testModel.compute_token_importances (pystr "P.") (pystr "Q?")
        (some (pystr " "))).tok_calls.map TokenizerCall.texts = [[pystr "Q? [SEP]  "]]) ∧
    pystr "Q? [SEP] " ≠ pystr "Q?" := by
  refine ⟨?_, ?_, ?_, ?_⟩ <;> decide

/-- C3: for every question batch and history batch, every linearized element
is its question followed by the turns of its history (the fields of the
Python split of the history on `" <sep> "`), each turn prefixed by exactly one
copy of the spaced separator token — in particular `k` turns receive exactly
`k` separator insertions, with no leading or trailing extra separator. -/
theorem linearization_prefixes_each_turn_once :
    ∀ (st : PyStr) (qs hs : List PyStr),
      linearize_batch st qs (some hs) =
        (qs.zip hs).map (fun p =>
          p.1 ++ sepJoin (pystr " " ++ st ++ pystr " ") (pySplit sepPattern p.2)) := by
  intro st qs hs
  simp only [linearize_batch, List.zip_map_right, List.map_map]
  refine List.map_congr_left (fun p _ => ?_)
  simp only [Function.comp, Prod.map_fst, Prod.map_snd, id_eq]
  rw [List.append_assoc, guard_join_eq_sepJoin]

/-- C5: after construction — for every environment, model name, device, and
both the supplied-tokenizer and default-tokenizer branches — the
encoder-decoder's decoder start-token id equals the tokenizer's cls token id
and its padding token id equals the tokenizer's padding token id. -/
theorem init_synchronizes_special_token_ids :
    ∀ (env : Env) (model_name : PyStr) (tokenizer : Option Tokenizer) (device : PyStr),
      ((Model.init env model_name tokenizer device).encoder_decoder.config.decoder_start_token_id
          = (Model.init env model_name tokenizer device).tokenizer.cls_token_id) ∧
      ((Model.init env model_name tokenizer device).encoder_decoder.config.pad_token_id
          = (Model.init env model_name tokenizer device).tokenizer.pad_token_id) := by
  intro env mn tok dev
  cases tok <;> exact ⟨rfl, rfl⟩

/-- C9: when `generate` receives a history batch, the linearized text batch
handed to the tokenizer has length `min (length question) (length history)`:
`zip` silently drops the excess questions or histories, and no error is raised
at the linearization step. -/
theorem generate_zip_truncates_mismatched_batches :
    ∀ (m : Model) (passage question hist : List PyStr) (gp : Option GenParams) (ri : Bool),
      (Model.generate m passage question (some hist) gp ri).tok_calls.map
          (fun c => c.texts.length) = [min question.length hist.length] := by
  intro m p q hs gp ri
  simp [Model.generate, linearize_batch, List.length_zip]

/-- A generation-parameters dictionary carrying only the `num_beams` key. -/
def gp5 : GenParams := { do_sample := none, num_beams := some 5, repetition_penalty := none }

/-- The encoder-decoder call `generate` makes on `testModel` with default
generation parameters. -/
def cCallDefault : EncDecCall :=
  { input_ids := [[101, 7, 102]]
    token_importances := [[1, 1, 1]]
    params := defaultGenerationParams }

/-- The encoder-decoder call `generate` makes on `testModel` when the caller
supplies the dictionary `gp5`. -/
def cCall5 : EncDecCall :=
  { input_ids := [[101, 7, 102]]
    token_importances := [[1, 1, 1]]
    params := gp5 }

/-- Every encoder-decoder invocation made by the forward pass takes its input
ids from the single tokenizer result, its importance scores from the single
extractor invocation run on those same ids, and the generation parameters the
pass was given. -/
theorem generateSteps_encdec_spec (tok : Tokenizer) (tie : TokenImportancesExtractor)
    (ed : EncoderDecoder) (call : TokenizerCall) (gp : GenParams) (ri : Bool) :
    ∀ c ∈ (generateSteps tok tie ed call gp ri).encdec_calls,
      ((generateSteps tok tie ed call gp ri).tok_results.map
          (Except.map TokenizedInputs.input_ids) = [Except.ok c.input_ids]) ∧
      ((generateSteps tok tie ed call gp ri).extractor_calls.map Prod.fst = [c.input_ids]) ∧
      ((generateSteps tok tie ed call gp ri).extractor_results
          = [Except.ok c.token_importances]) ∧
      c.params = gp := by
  intro c hc
  cases henc : tok.encode call with
  | error e => simp [generateSteps, henc] at hc
  | ok inputs =>
    cases hf : tie.fwd tie.state_dict inputs.input_ids inputs.attention_mask with
    | error e => simp [generateSteps, henc, hf] at hc
    | ok sc =>
      cases hg : ed.gen ed.state_dict inputs.input_ids sc gp with
      | error e =>
        simp only [generateSteps, henc, hf, hg] at hc ⊢
        simp only [List.mem_singleton] at hc
        subst hc
        exact ⟨rfl, rfl, rfl, rfl⟩
      | ok ids =>
        simp only [generateSteps, henc, hf, hg] at hc ⊢
        simp only [List.mem_singleton] at hc
        subst hc
        exact ⟨rfl, rfl, rfl, rfl⟩

/-- The single-sample forward pass performs stage by stage the same
collaborator calls with the same results as the batched forward pass on the
same tokenizer call, and returns exactly the extractor's output. -/
theorem computeSteps_eq_generateSteps (tok : Tokenizer) (tie : TokenImportancesExtractor)
    (ed : EncoderDecoder) (call : TokenizerCall) (gp : GenParams) (ri : Bool) :
    ((computeSteps tok tie call).tok_results
        = (generateSteps tok tie ed call gp ri).tok_results) ∧
    ((computeSteps tok tie call).extractor_calls
        = (generateSteps tok tie ed call gp ri).extractor_calls) ∧
    ((computeSteps tok tie call).extractor_results
        = (generateSteps tok tie ed call gp ri).extractor_results) ∧
    (∀ s, (computeSteps tok tie call).result = Except.ok s ↔
      (generateSteps tok tie ed call gp ri).extractor_results = [Except.ok s]) := by
  cases henc : tok.encode call with
  | error e =>
    refine ⟨?_, ?_, ?_, fun s => ?_⟩ <;> simp [computeSteps, generateSteps, henc]
  | ok inputs =>
    cases hf : tie.fwd tie.state_dict inputs.input_ids inputs.attention_mask with
    | error e =>
      refine ⟨?_, ?_, ?_, fun s => ?_⟩ <;> simp [computeSteps, generateSteps, henc, hf]
    | ok sc =>
      cases hg : ed.gen ed.state_dict inputs.input_ids sc gp with
      | error e =>
        refine ⟨?_, ?_, ?_, fun s => ?_⟩ <;> simp [computeSteps, generateSteps, henc, hf, hg]
      | ok ids =>
        refine ⟨?_, ?_, ?_, fun s => ?_⟩ <;> simp [computeSteps, generateSteps, henc, hf, hg]

/-- The batched linearization of a singleton batch is the singleton of the
single-sample linearization. -/
theorem linearize_batch_singleton (st q : PyStr) (h : Option PyStr) :
    linearize_batch st [q] (h.map fun s => [s]) = [linearize_single st q h] := by
  cases h <;> rfl

/-- C2 (counterexample): supplying a dictionary containing only `num_beams`
makes `generate` pass that dictionary to the encoder-decoder verbatim: the
`repetition_penalty` key of the effective parameters is absent (`none`), not
the claimed default `2.0` — no merging with the defaults happens. -/
theorem subset_generation_params_not_merged :
    ((Model.generate testModel [pystr "P."] [pystr "Q?"] none (some gp5) false).encdec_calls.map
        EncDecCall.params = [gp5]) ∧
    gp5.repetition_penalty = none ∧
    defaultGenerationParams.repetition_penalty = some 2 ∧
    (none : Option ℚ) ≠ some 2 := by
  refine ⟨rfl, rfl, rfl, by decide⟩

/-- C2 (amended): the default dictionary
`do_sample=False, num_beams=3, repetition_penalty=2.0` is used exactly when no
dictionary is supplied; a supplied dictionary is stored and passed to the
encoder-decoder verbatim, with no per-key fallback for its absent keys. -/
theorem generation_params_default_or_verbatim :
    ∀ (m : Model) (p q : List PyStr) (h : Option (List PyStr)) (ri : Bool) (g : GenParams),
      ((Model.generate m p q h none ri).final.generation_params
          = some defaultGenerationParams) ∧
      ((Model.generate m p q h (some g) ri).final.generation_params = some g) ∧
      ∀ c ∈ (Model.generate m p q h (some g) ri).encdec_calls, c.params = g := by
  intro m p q h ri g
  exact ⟨rfl, rfl, fun c hc =>
    (generateSteps_encdec_spec m.tokenizer m.token_importances_extractor m.encoder_decoder
      _ _ ri c hc).2.2.2⟩

/-- C2 (witness): the amended theorem applied to the concrete model and the
`num_beams`-only dictionary. -/
theorem generation_params_default_or_verbatim_witness : cCall5.params = gp5 :=
  (generation_params_default_or_verbatim testModel [pystr "P."] [pystr "Q?"] none false
    gp5).2.2 cCall5 (by decide)

/-- C4: `compute_token_importances` is the `generate` pipeline restricted to
the batch holding only its triple and stopped after the extractor: it issues
the identical single tokenizer call (same linearized text, same passage pair,
same `max_length=512`/truncation/padding arguments) with the identical result,
the identical extractor invocation with the identical result, and it returns
precisely the extractor's output, with no generation step. -/
theorem compute_is_generate_at_batch_one :
    ∀ (m : Model) (p q : PyStr) (h : Option PyStr) (gp : Option GenParams) (ri : Bool),
      ((Model.compute_token_importances m p q h).tok_calls
          = (Model.generate m [p] [q] (h.map fun s => [s]) gp ri).tok_calls) ∧
      ((Model.compute_token_importances m p q h).tok_results
          = (Model.generate m [p] [q] (h.map fun s => [s]) gp ri).tok_results) ∧
      ((Model.compute_token_importances m p q h).extractor_calls
          = (Model.generate m [p] [q] (h.map fun s => [s]) gp ri).extractor_calls) ∧
      ((Model.compute_token_importances m p q h).extractor_results
          = (Model.generate m [p] [q] (h.map fun s => [s]) gp ri).extractor_results) ∧
      (∀ s, (Model.compute_token_importances m p q h).result = Except.ok s ↔
        (Model.generate m [p] [q] (h.map fun s => [s]) gp ri).extractor_results
          = [Except.ok s]) := by
  intro m p q h gp ri
  cases h with
  | none =>
    exact ⟨rfl,
      (computeSteps_eq_generateSteps m.tokenizer m.token_importances_extractor
        m.encoder_decoder _ _ ri).1,
      (computeSteps_eq_generateSteps m.tokenizer m.token_importances_extractor
        m.encoder_decoder _ _ ri).2.1,
      (computeSteps_eq_generateSteps m.tokenizer m.token_importances_extractor
        m.encoder_decoder _ _ ri).2.2.1,
      (computeSteps_eq_generateSteps m.tokenizer m.token_importances_extractor
        m.encoder_decoder _ _ ri).2.2.2⟩
  | some hh =>
    exact ⟨rfl,
      (computeSteps_eq_generateSteps m.tokenizer m.token_importances_extractor
        m.encoder_decoder _ _ ri).1,
      (computeSteps_eq_generateSteps m.tokenizer m.token_importances_extractor
        m.encoder_decoder _ _ ri).2.1,
      (computeSteps_eq_generateSteps m.tokenizer m.token_importances_extractor
        m.encoder_decoder _ _ ri).2.2.1,
      (computeSteps_eq_generateSteps m.tokenizer m.token_importances_extractor
        m.encoder_decoder _ _ ri).2.2.2⟩

/-- C4 (witness): on the concrete model, the single-sample result is the
extractor output computed by the batch-of-one `generate` pipeline. -/
theorem compute_is_generate_at_batch_one_witness :
    (Model.compute_token_importances testModel (pystr "P.") (pystr "Q?") none).result
      = Except.ok [[1, 1, 1]] :=
  ((compute_is_generate_at_batch_one testModel (pystr "P.") (pystr "Q?") none none
    false).2.2.2.2 [[1, 1, 1]]).mpr rfl

/-- C6: within a single `generate` call, whenever the encoder-decoder is
invoked, there was exactly one tokenizer call, the encoder-decoder's input ids
are the ids of that single tokenizer call's result, and its importance-score
tensor is the result of the single extractor invocation run on those same
input ids — score tensor and input ids never come from different tokenization
calls. -/
theorem importances_aligned_with_encdec_input :
    ∀ (m : Model) (p q : List PyStr) (h : Option (List PyStr)) (gp : Option GenParams)
      (ri : Bool),
      ∀ c ∈ (Model.generate m p q h gp ri).encdec_calls,
        ((Model.generate m p q h gp ri).tok_calls.length = 1) ∧
        ((Model.generate m p q h gp ri).tok_results.map
            (Except.map TokenizedInputs.input_ids) = [Except.ok c.input_ids]) ∧
        ((Model.generate m p q h gp ri).extractor_calls.map Prod.fst = [c.input_ids]) ∧
        ((Model.generate m p q h gp ri).extractor_results
            = [Except.ok c.token_importances]) := by
  intro m p q h gp ri c hc
  have h' := generateSteps_encdec_spec m.tokenizer m.token_importances_extractor
    m.encoder_decoder _ _ ri c hc
  exact ⟨rfl, h'.1, h'.2.1, h'.2.2.1⟩

/-- C6 (witness): the theorem applied to the concrete model's encoder-decoder
call. -/
theorem importances_aligned_with_encdec_input_witness :
    (Model.generate testModel [pystr "P."] [pystr "Q?"] none none false).extractor_results
      = [Except.ok [[1, 1, 1]]] :=
  (importances_aligned_with_encdec_input testModel [pystr "P."] [pystr "Q?"] none none false
    cCallDefault (by decide)).2.2.2

/-- C7 (counterexample): on a concrete environment where the extractor
snapshot loads (value 7) and the encoder-decoder snapshot is missing, the
error surfaces, yet the extractor's parameters have already been replaced
(7, no longer the original 0): the load is partial, not all-or-nothing. -/
theorem load_weigths_partial_on_second_failure :
    ((Model.load_weigths testEnv testModel (pystr "tie.pt") (pystr "ed.pt")).2
        = some "missing snapshot") ∧
    ((Model.load_weigths testEnv testModel (pystr "tie.pt")
        (pystr "ed.pt")).1.token_importances_extractor.state_dict = 7) ∧
    testModel.token_importances_extractor.state_dict = 0 := by
  refine ⟨rfl, rfl, rfl⟩

/-- C7 (amended): loading is sequential, not atomic.  A failure on the
extractor snapshot surfaces immediately and mutates nothing; a failure on the
encoder-decoder snapshot surfaces immediately but only after the extractor's
parameters have already been replaced, the encoder-decoder alone being left
unchanged; when both snapshots load, both modules' parameters are replaced and
no error surfaces. -/
theorem load_weigths_sequential :
    ∀ (env : Env) (m : Model) (a b : PyStr) (w : Int) (e : Err),
      (env.torchLoad a = Except.error e → Model.load_weigths env m a b = (m, some e)) ∧
      (env.torchLoad a = Except.ok w → env.torchLoad b = Except.error e →
        ((Model.load_weigths env m a b).2 = some e) ∧
        ((Model.load_weigths env m a b).1.token_importances_extractor.state_dict = w) ∧
        ((Model.load_weigths env m a b).1.encoder_decoder = m.encoder_decoder)) ∧
      (∀ w', env.torchLoad a = Except.ok w → env.torchLoad b = Except.ok w' →
        ((Model.load_weigths env m a b).2 = none) ∧
        ((Model.load_weigths env m a b).1.token_importances_extractor.state_dict = w) ∧
        ((Model.load_weigths env m a b).1.encoder_decoder.state_dict = w')) := by
  intro env m a b w e
  refine ⟨fun h1 => ?_, fun h1 h2 => ?_, fun w' h1 h2 => ?_⟩
  · simp [Model.load_weigths, h1]
  · simp [Model.load_weigths, h1, h2]
  · simp [Model.load_weigths, h1, h2]

/-- C7 (witness): the amended theorem's mixed case applied to the concrete
environment. -/
theorem load_weigths_sequential_witness :
    ((Model.load_weigths testEnv testModel (pystr "tie.pt") (pystr "ed2.pt")).2
        = some "missing snapshot") ∧
    ((Model.load_weigths testEnv testModel (pystr "tie.pt")
        (pystr "ed2.pt")).1.token_importances_extractor.state_dict = 7) ∧
    ((Model.load_weigths testEnv testModel (pystr "tie.pt")
        (pystr "ed2.pt")).1.encoder_decoder = testModel.encoder_decoder) :=
  (load_weigths_sequential testEnv testModel (pystr "tie.pt") (pystr "ed2.pt") 7
    "missing snapshot").2.1 rfl rfl

/-- C8: a `generate` call leaves every field of the model unchanged except
`generation_params`, which becomes the effective (supplied-or-default)
dictionary; and the stored dictionary is read back by no operation:
`generate`, `compute_token_importances` and `load_weigths` behave identically
whatever value the field held beforehand. -/
theorem generate_mutates_only_generation_params :
    ∀ (m : Model) (p q : List PyStr) (h : Option (List PyStr)) (gp : Option GenParams)
      (ri : Bool),
      ((Model.generate m p q h gp ri).final.model_name = m.model_name) ∧
      ((Model.generate m p q h gp ri).final.device = m.device) ∧
      ((Model.generate m p q h gp ri).final.tokenizer = m.tokenizer) ∧
      ((Model.generate m p q h gp ri).final.token_importances_extractor
          = m.token_importances_extractor) ∧
      ((Model.generate m p q h gp ri).final.encoder_decoder = m.encoder_decoder) ∧
      ((Model.generate m p q h gp ri).final.generation_params
          = some (effectiveGenerationParams gp)) ∧
      (∀ gp', Model.generate { m with generation_params := gp' } p q h gp ri
          = Model.generate m p q h gp ri) ∧
      (∀ gp' (p' q' : PyStr) (h' : Option PyStr),
        Model.compute_token_importances { m with generation_params := gp' } p' q' h'
          = Model.compute_token_importances m p' q' h') ∧
      (∀ (env : Env) gp' (a b : PyStr),
        ((Model.load_weigths env { m with generation_params := gp' } a b).2
            = (Model.load_weigths env m a b).2) ∧
        ((Model.load_weigths env { m with generation_params := gp' } a
            b).1.token_importances_extractor
          = (Model.load_weigths env m a b).1.token_importances_extractor) ∧
        ((Model.load_weigths env { m with generation_params := gp' } a b).1.encoder_decoder
          = (Model.load_weigths env m a b).1.encoder_decoder)) := by
  intro m p q h gp ri
  refine ⟨rfl, rfl, rfl, rfl, rfl, rfl, fun gp' => rfl, fun gp' p' q' h' => rfl,
    fun env gp' a b => ?_⟩
  unfold Model.load_weigths
  cases env.torchLoad a with
  | error e => exact ⟨rfl, rfl, rfl⟩
  | ok w =>
    cases env.torchLoad b with
    | error e => exact ⟨rfl, rfl, rfl⟩
    | ok w' => exact ⟨rfl, rfl, rfl⟩

/-- C10: the stored generation-parameters attribute is assigned before the
tokenization and forward passes, so even when the call ends in an error the
attribute already holds the failed call's effective parameters. -/
theorem generation_params_stored_before_failure :
    ∀ (m : Model) (p q : List PyStr) (h : Option (List PyStr)) (gp : Option GenParams)
      (ri : Bool) (e : Err),
      (Model.generate m p q h gp ri).result = Except.error e →
      (Model.generate m p q h gp ri).final.generation_params
        = some (effectiveGenerationParams gp) :=
  fun _ _ _ _ _ _ _ _ => rfl

/-- C10 (witness): on a model whose tokenizer raises, the call errors and the
attribute nevertheless holds the effective (default) parameters. -/
theorem generation_params_stored_before_failure_witness :
    (Model.generate failModel [pystr "P."] [pystr "Q?"] none none false).final.generation_params
      = some (effectiveGenerationParams none) :=
  generation_params_stored_before_failure failModel [pystr "P."] [pystr "Q?"] none none false
    "tokenization failed" rfl

end QAModel
